import Mathlib

/-!
Shallow embedding of the task execution and orchestration engine of GitUI
(src/base/base_worker.py together with the scanner, worker and runner modules
built on top of it), and proofs about it.

Modelling conventions:

* JSON values decoded by Python's `json.loads` are modelled by the `Json`
  inductive; a decoded dict is its entry list, with later duplicate keys
  winning, as in `json.loads`.
* Qt signal emissions are collected into an explicit `List Emission`.
* The cancellation flag `_is_running` is read at a sequence of observation
  points (the two checkpoints in `BaseWorker.run` and one read per
  `_safe_emit`).  A run is modelled against `flags : Nat → Bool` giving the
  value read at the i-th observation point.  `stop()` only ever clears the
  flag, so runs against monotonically falling `flags` cover every
  interleaving with a concurrent `stop()`; `FlagsMono` states that shape.
* Wall-clock durations are opaque rationals threaded through unchanged; the
  code recomputes `time.time() - start_time` in every handler, which we
  collapse into one opaque `elapsed` value since no claim depends on timing.
* Subprocess execution (`_run_powershell`) is summarised by a `ProcOutcome`:
  a completed process with exit code and streams, a raised
  `subprocess.TimeoutExpired`, or any other raised exception.
-/

namespace GitUI

/-- JSON values as produced by Python `json.loads`. -/
inductive Json where
  | null
  | bool (b : Bool)
  | num (n : Int)
  | str (s : String)
  | arr (elems : List Json)
  | obj (entries : List (String × Json))

/-- Python-dict lookup on decoded JSON object entries; a later duplicate key
wins, matching the behaviour of `json.loads`. -/
def lookupEntry (entries : List (String × Json)) (k : String) : Option Json :=
  match entries with
  | [] => none
  | (k', v) :: rest =>
    match lookupEntry rest k with
    | some v' => some v'
    | none => if k' = k then some v else none

/-- Python `data.get(k, default)` on a decoded JSON object. -/
def dictGet (entries : List (String × Json)) (k : String) (dflt : Json) : Json :=
  (lookupEntry entries k).getD dflt

/-- Outcome of `BaseWorker._run_powershell` (command construction plus
subprocess execution) as observed by `BaseWorker.run`. -/
inductive ProcOutcome where
  | completed (returncode : Int) (stdout stderr : String)
  | timeoutExpired
  | raised (msg : String)

/-- Exception raised by a `_parse_result` implementation, as classified by the
handlers of `BaseWorker.run`: `subprocess.TimeoutExpired`,
`json.JSONDecodeError`, or any other exception. -/
inductive ParseExc where
  | timeoutExpired
  | jsonDecodeError (msg : String)
  | raised (msg : String)

/-- One Qt signal emission of a worker: `signals.error`, `signals.finished`
or `signals.progress`. -/
inductive Emission (α : Type) where
  | error (msg : String)
  | finished (result : α)
  | progress (current total : Nat)

/-- Whether an emission is a terminal `finished` emission. -/
def Emission.isFinished {α : Type} : Emission α → Bool
  | .finished _ => true
  | _ => false

/-- Number of terminal `finished` emissions in an emission list. -/
def finishedCount {α : Type} (es : List (Emission α)) : Nat :=
  (es.filter Emission.isFinished).length

/-- The subclass hooks of the template method `BaseWorker.run`:
`_parse_result(output, duration)` (which may raise) and
`_get_error_result(error_message, duration)`. -/
structure TaskHooks (α : Type) where
  parse_result : String → Rat → Except ParseExc α
  get_error_result : String → Rat → α

/-- Execution environment of one `BaseWorker.run` invocation. -/
structure RunEnv where
  proc : ProcOutcome
  elapsed : Rat

/-- `BaseWorker._safe_emit`: the emission goes through only if the
cancellation flag reads true at this observation point (`i`). -/
def safe_emit {α : Type} (flags : Nat → Bool) (i : Nat) (e : Emission α) :
    List (Emission α) :=
  if flags i then [e] else []

/-- `BaseWorker.run` (src/base/base_worker.py, lines 125-175).  Returns the
emissions produced and the number of flag observation points passed.
Observation point 0 is the checkpoint before building the command, point 1
the checkpoint after the subprocess returns, and each `_safe_emit` reads the
flag at the next point. -/
def base_run {α : Type} (flags : Nat → Bool) (hooks : TaskHooks α)
    (env : RunEnv) : List (Emission α) × Nat :=
  if flags 0 then
    match env.proc with
    | .timeoutExpired =>
        (safe_emit flags 1 (.error "Timeout: Operation took too long") ++
         safe_emit flags 2
           (.finished (hooks.get_error_result "Timeout" env.elapsed)), 3)
    | .raised m =>
        (safe_emit flags 1 (.error ("Unexpected error: " ++ m.take 200)) ++
         safe_emit flags 2 (.finished (hooks.get_error_result m env.elapsed)), 3)
    | .completed rc out err =>
        if flags 1 then
          if rc ≠ 0 then
            (safe_emit flags 2 (.error ("PowerShell error: " ++ err.take 200)) ++
             safe_emit flags 3
               (.finished (hooks.get_error_result "" env.elapsed)), 4)
          else
            match hooks.parse_result out.trim env.elapsed with
            | .ok r => (safe_emit flags 2 (.finished r), 3)
            | .error .timeoutExpired =>
                (safe_emit flags 2 (.error "Timeout: Operation took too long") ++
                 safe_emit flags 3
                   (.finished (hooks.get_error_result "Timeout" env.elapsed)), 4)
            | .error (.jsonDecodeError m) =>
                (safe_emit flags 2 (.error ("Failed to parse results: " ++ m)) ++
                 safe_emit flags 3
                   (.finished (hooks.get_error_result "Parse error" env.elapsed)), 4)
            | .error (.raised m) =>
                (safe_emit flags 2 (.error ("Unexpected error: " ++ m.take 200)) ++
                 safe_emit flags 3
                   (.finished (hooks.get_error_result m env.elapsed)), 4)
        else ([], 2)
  else ([], 1)

/-- `stop()` only ever clears the flag, so the values read at successive
observation points fall monotonically. -/
def FlagsMono (flags : Nat → Bool) : Prop :=
  ∀ i j, i ≤ j → flags j = true → flags i = true

/-- A scanned repository status (scanners/git_pull_scanner.py `RepoStatus`).
The fields keep the decoded JSON values: the Python dataclass is untyped and
stores whatever `json.loads` produced for `Name`, `Path` and `Behind`. -/
structure RepoStatus where
  name : Json
  path : Json
  behind : Json

/-- A scan result (scanners/git_pull_scanner.py `ScanResult`). -/
structure ScanResult where
  repos : List RepoStatus
  duration : Rat

/-- `PowerShellScannerWorker._create_repo_status` for the pull scanner:
`RepoStatus(name=item["Name"], path=item["Path"], behind=item["Behind"])`.
A missing key raises `KeyError`, a non-dict item raises `TypeError`; both are
generic exceptions to `BaseWorker.run`. -/
def create_repo_status (item : Json) : Except ParseExc RepoStatus :=
  match item with
  | .obj entries =>
    match lookupEntry entries "Name", lookupEntry entries "Path",
        lookupEntry entries "Behind" with
    | some n, some p, some b => .ok ⟨n, p, b⟩
    | _, _, _ => .error (.raised "KeyError")
  | _ => .error (.raised "TypeError")

/-- `BaseScannerWorker._parse_result` (src/base/base_worker.py, lines
256-279), with `json.loads` abstracted as the `loads` argument: empty or
literal-"[]" output yields an empty result; a decode failure raises
`json.JSONDecodeError`; a decoded single dict is wrapped into a one-element
list; the items are then converted by `_create_repo_status` in order (the
first failing item aborts the comprehension with its exception); iterating a
non-list decoded value raises. -/
def scanner_parse_result (loads : String → Except String Json)
    (output : String) (duration : Rat) : Except ParseExc ScanResult :=
  if output = "" ∨ output = "[]" then .ok ⟨[], duration⟩
  else
    match loads output with
    | .error m => .error (.jsonDecodeError m)
    | .ok (.obj entries) =>
        (([Json.obj entries]).mapM create_repo_status).map fun rs =>
          ⟨rs, duration⟩
    | .ok (.arr items) =>
        (items.mapM create_repo_status).map fun rs => ⟨rs, duration⟩
    | .ok _ => .error (.raised "TypeError")

/-- `BaseScannerWorker._get_error_result` (src/base/base_worker.py, lines
281-294): the error message is ignored and an empty `ScanResult` returned. -/
def scanner_error_result (_error_message : String) (duration : Rat) :
    ScanResult :=
  ⟨[], duration⟩

/-- The `TaskHooks` instantiation of `BaseScannerWorker`. -/
def scanner_hooks (loads : String → Except String Json) :
    TaskHooks ScanResult :=
  { parse_result := scanner_parse_result loads
    get_error_result := scanner_error_result }

/-- `BaseScannerWorker._count_repositories` (src/base/base_worker.py, lines
209-226): parse the count command's stdout as a number if it is all digits,
otherwise (or on any exception, including a timeout) return 0.  Note the
exit code is not consulted. -/
def count_repositories (proc : ProcOutcome) : Nat :=
  match proc with
  | .completed _ out _ =>
      let s := out.trim
      if s ≠ "" ∧ s.all Char.isDigit then s.toNat?.getD 0 else 0
  | _ => 0

/-- `BaseScannerWorker.run` (src/base/base_worker.py, lines 228-242): emit
`progress(0, total)` through the safe-emit gate (observation point 0), check
the cancellation flag (point 1), then run the `BaseWorker.run` template,
whose observation points follow (shifted by 2). -/
def scanner_run (flags : Nat → Bool) (loads : String → Except String Json)
    (countProc : ProcOutcome) (env : RunEnv) : List (Emission ScanResult) :=
  let head := safe_emit flags 0 (.progress 0 (count_repositories countProc))
  if flags 1 then
    head ++ (base_run (fun i => flags (i + 2)) (scanner_hooks loads) env).1
  else head

/-- The failure paths of one `BaseWorker.run` execution: timeout, generic
exception, nonzero exit code, or an exception raised while parsing. -/
def RunFails {α : Type} (hooks : TaskHooks α) (env : RunEnv) : Prop :=
  env.proc = .timeoutExpired ∨
  (∃ m, env.proc = .raised m) ∨
  (∃ rc out err, env.proc = .completed rc out err ∧ rc ≠ 0) ∨
  (∃ out err e, env.proc = .completed 0 out err ∧
    hooks.parse_result out.trim env.elapsed = .error e)

/-- Does `pat` occur as a contiguous run inside `l`? -/
def charsContain (pat : List Char) : List Char → Bool
  | [] => pat.isPrefixOf []
  | c :: t => pat.isPrefixOf (c :: t) || charsContain pat t

/-- Occurrence test standing in for PowerShell's unanchored regex `-match`
on a literal pattern: does `pat` occur as a substring of `s`? -/
def containsStr (s pat : String) : Bool := charsContain pat.data s.data

/-- Prefix test on strings, over their character lists. -/
def strStartsWith (s pat : String) : Bool := pat.data.isPrefixOf s.data

/-- The local-change marker test of the pull script
(workers/git_pull_worker.py, line 80): the first `git pull` output matched
against the alternation of the three marker phrases. -/
def matchesLocalChanges (s : String) : Bool :=
  containsStr s "error: Your local changes" ||
  containsStr s "would be overwritten" ||
  containsStr s "Please commit your changes or stash them"

/-- The unmerged-marker test of the pull script
(workers/git_pull_worker.py, line 111): some line of
`git status --porcelain` matches `^(UU|AA|DD) `. -/
def hasUnmergedMarker (statusLines : List String) : Bool :=
  statusLines.any fun l =>
    strStartsWith l "UU " || strStartsWith l "AA " || strStartsWith l "DD "

/-- Outcomes of the git invocations made by the pull script of
`GitPullWorker._get_powershell_command`: exit status and text output of each
command the script can reach, the lines reported by
`git status --porcelain`, and the segments obtained by splitting the
`Out-String`-joined output of `git diff --name-only --diff-filter=U` on a
bare line feed.  `Out-String` joins lines with the platform newline (CRLF
on Windows) and appends a trailing one, so on Windows each segment keeps a
trailing carriage return and the last segment is empty. -/
structure GitPullEnv where
  repoExists : Bool
  pullOk : Bool
  pullOut : String
  stashOk : Bool
  stashOut : String
  retryOk : Bool
  retryOut : String
  popOk : Bool
  popOut : String
  statusLines : List String
  diffLines : List String

/-- PowerShell pipeline-assignment collapse, as it reaches `ConvertTo-Json`:
an assignment from a pipeline (`$filesArray = ... | Where-Object ...`)
yields `$null` when no element survives, the element itself (a scalar) when
exactly one survives, and an array only when two or more survive;
`ConvertTo-Json` then serializes the property as `null`, a bare value, or
an array respectively. -/
def pipelineToJson (elems : List Json) : Json :=
  match elems with
  | [] => Json.null
  | [e] => e
  | es => Json.arr es

/-- The pull script of `GitPullWorker._get_powershell_command`
(workers/git_pull_worker.py, lines 47-156), as the JSON object entries it
writes to stdout: missing repo check, first pull, local-change detection,
stash, retry pull, stash pop, and conflict inspection on pop failure. -/
def pull_script (repoName : String) (env : GitPullEnv) :
    List (String × Json) :=
  if !env.repoExists then
    [("Status", .str "MISSING"), ("RepoName", .str repoName),
     ("ErrorMessage", .str "Repository path does not exist")]
  else if env.pullOk then
    [("Status", .str "SUCCESS"), ("RepoName", .str repoName)]
  else if matchesLocalChanges env.pullOut then
    if !env.stashOk then
      [("Status", .str "ERROR"), ("RepoName", .str repoName),
       ("ErrorMessage", .str ("Failed to stash changes: " ++ env.stashOut))]
    else if !env.retryOk then
      [("Status", .str "ERROR"), ("RepoName", .str repoName),
       ("ErrorMessage", .str ("Pull failed after stashing: " ++ env.retryOut))]
    else if !env.popOk then
      if hasUnmergedMarker env.statusLines then
        [("Status", .str "CONFLICT"), ("RepoName", .str repoName),
         ("ErrorMessage", .str "Merge conflicts detected"),
         ("ConflictFiles",
          pipelineToJson ((env.diffLines.filter (· ≠ "")).map Json.str))]
      else
        [("Status", .str "ERROR"), ("RepoName", .str repoName),
         ("ErrorMessage", .str ("Failed to restore stash: " ++ env.popOut))]
    else
      [("Status", .str "SUCCESS"), ("RepoName", .str repoName)]
  else
    [("Status", .str "ERROR"), ("RepoName", .str repoName),
     ("ErrorMessage", .str env.pullOut)]

/-- The pull result dataclass (workers/git_pull_worker.py `PullResult`).
The Python dataclass is untyped; the fields filled from the wire keep their
decoded JSON values. -/
structure PullResult where
  status : Json
  repo_name : Json
  repo_path : String
  error_message : Json
  conflict_files : Json

/-- `GitPullWorker._create_result_from_data` (workers/git_pull_worker.py,
lines 158-179), on the entries of the decoded JSON dict: every field is read
with `data.get` and a default, and `PullResult.__post_init__` replaces a
`None` conflict-files value with the empty list. -/
def pull_create_result_from_data (repoName repoPath : String)
    (data : List (String × Json)) : PullResult :=
  { status := dictGet data "Status" (.str "ERROR")
    repo_name := dictGet data "RepoName" (.str repoName)
    repo_path := repoPath
    error_message := dictGet data "ErrorMessage" (.str "")
    conflict_files :=
      match dictGet data "ConflictFiles" (.arr []) with
      | .null => .arr []
      | v => v }

/-- The `conflict_files` value the program delivers for given LF-split diff
segments, composing the pipeline collapse of the script with the
`None`-to-`[]` normalization of `PullResult.__post_init__`: an empty
surviving set arrives as `null` and becomes `[]`; a single surviving
segment arrives as a bare JSON string; two or more arrive as an array. -/
def delivered_conflict_files (segments : List String) : Json :=
  match segments.filter (· ≠ "") with
  | [] => Json.arr []
  | [f] => Json.str f
  | fs => Json.arr (fs.map Json.str)

/-- `ExcludeConfirmationDialog._auto_skip` (ui/exclude_confirmation_dialog.py,
lines 276-279): when the countdown expires, select "skip" unless the user
already chose. -/
def auto_skip (user_choice : Option String) : Option String :=
  match user_choice with
  | none => some "skip"
  | some c => some c

/-- `ExcludeConfirmationDialog.get_choice` (ui/exclude_confirmation_dialog.py,
lines 321-327): the user's choice, defaulting to "skip" when unset (Python
truthiness also maps an empty-string choice to "skip"). -/
def get_choice (user_choice : Option String) : String :=
  match user_choice with
  | some c => if c = "" then "skip" else c
  | none => "skip"

/-- The choice the confirmation dialog reports when it closes: the decision
made before the countdown expired (if any), run through the auto-skip
default and `get_choice`. -/
def dialog_final_choice (decision : Option String) : String :=
  get_choice (auto_skip decision)

/-- The push result dataclass (workers/git_push_worker.py `PushResult`) as
constructed with plain literals by the push runner. -/
structure PushResult where
  status : String
  repo_name : String
  repo_path : String
  error_message : String
  is_excluded : Bool

/-- What `GitPushRunner._execute_push` does with one repository: either
dispatch a `GitPushWorker` to the thread pool, or complete synchronously
with an early result. -/
inductive PushDispatch where
  | worker (repo_name repo_path : String)
  | finishedEarly (result : PushResult)

/-- `GitPushRunner._execute_push` (src/core/push_runner.py, lines 244-292):
an excluded repository goes through the confirmation dialog; "skip" and
"manual_push" complete early with a SKIPPED, `is_excluded` result, while
"push" (or a non-excluded repository) dispatches the worker. -/
def execute_push (excluded : Bool) (decision : Option String)
    (repo_name repo_path : String) : PushDispatch :=
  if excluded then
    if dialog_final_choice decision = "skip" then
      .finishedEarly
        ⟨"SKIPPED", repo_name, repo_path, "Skipped (excluded repository)", true⟩
    else if dialog_final_choice decision = "manual_push" then
      .finishedEarly
        ⟨"SKIPPED", repo_name, repo_path, "User chose manual push", true⟩
    else .worker repo_name repo_path
  else .worker repo_name repo_path

/-- The shared per-phase counters of the runners
(`completed_count`, `success_count`, `failed_count`). -/
structure RunCounters where
  completed : Nat
  success : Nat
  failed : Nat

/-- The one terminal event each repository of a phase contributes: either the
MISSING short-circuit taken inside `_run_operations`, or the one `finished`
callback carrying the result status string. -/
inductive RepoEvent where
  | missing
  | finished (status : String)

/-- Is this a result the push runner classifies as skipped? -/
def RepoEvent.isSkipped : RepoEvent → Bool
  | .finished st => st = "SKIPPED" || st = "CANCELLED"
  | .missing => false

/-- Number of skipped results among a phase's events. -/
def skipped_count (es : List RepoEvent) : Nat :=
  (es.filter RepoEvent.isSkipped).length

/-- Counter update of the pull phase: the MISSING branch of
`GitPullRunner._run_operations` (src/core/pull_runner.py, lines 201-205) and
`GitPullRunner._on_pull_finished` (lines 220-233), which counts SUCCESS as
success and every other status as failed. -/
def pull_count_step (c : RunCounters) (e : RepoEvent) : RunCounters :=
  match e with
  | .missing => ⟨c.completed + 1, c.success, c.failed + 1⟩
  | .finished st =>
      if st = "SUCCESS" then ⟨c.completed + 1, c.success + 1, c.failed⟩
      else ⟨c.completed + 1, c.success, c.failed + 1⟩

/-- Counter update of the push phase: the MISSING branch of
`GitPushRunner._run_operations` (src/core/push_runner.py, lines 227-233) and
`GitPushRunner._on_push_finished` (lines 337-368), which counts SUCCESS as
success, SKIPPED/CANCELLED as neither success nor failure, and everything
else as failed. -/
def push_count_step (c : RunCounters) (e : RepoEvent) : RunCounters :=
  match e with
  | .missing => ⟨c.completed + 1, c.success, c.failed + 1⟩
  | .finished st =>
      if st = "SUCCESS" then ⟨c.completed + 1, c.success + 1, c.failed⟩
      else if st = "SKIPPED" ∨ st = "CANCELLED" then
        ⟨c.completed + 1, c.success, c.failed⟩
      else ⟨c.completed + 1, c.success, c.failed + 1⟩

/-- A repository as checked by `_run_operations` before dispatch:
`Path(repo_status.path).is_dir()` and `(repo / ".git").is_dir()`. -/
structure RepoEntry where
  name : String
  is_dir : Bool
  has_git_dir : Bool

/-- The MISSING pre-check of both runners' `_run_operations`:
`not repo.is_dir() or not (repo / ".git").is_dir()`. -/
def repo_missing (r : RepoEntry) : Bool := !r.is_dir || !r.has_git_dir

/-- One iteration of `GitPullRunner._run_operations`
(src/core/pull_runner.py, lines 198-209), accumulating the counters, the
repositories handed to a worker, and the card updates. -/
def pull_dispatch_step
    (acc : RunCounters × List RepoEntry × List (String × String))
    (r : RepoEntry) : RunCounters × List RepoEntry × List (String × String) :=
  if repo_missing r then
    (⟨acc.1.completed + 1, acc.1.success, acc.1.failed + 1⟩, acc.2.1,
      acc.2.2 ++ [(r.name, "MISSING")])
  else
    (acc.1, acc.2.1 ++ [r], acc.2.2 ++ [(r.name, "QUEUED")])

/-- `GitPullRunner._run_operations` over a phase's repository list. -/
def run_operations_pull (repos : List RepoEntry) :
    RunCounters × List RepoEntry × List (String × String) :=
  repos.foldl pull_dispatch_step (⟨0, 0, 0⟩, [], [])

/-- One iteration of `GitPushRunner._run_operations`
(src/core/push_runner.py, lines 224-242): like the pull loop, but a worker
is only dispatched when `is_cancelling` is not set. -/
def push_dispatch_step (cancelling : Bool)
    (acc : RunCounters × List RepoEntry × List (String × String))
    (r : RepoEntry) : RunCounters × List RepoEntry × List (String × String) :=
  if repo_missing r then
    (⟨acc.1.completed + 1, acc.1.success, acc.1.failed + 1⟩, acc.2.1,
      acc.2.2 ++ [(r.name, "MISSING")])
  else
    (acc.1, if cancelling then acc.2.1 else acc.2.1 ++ [r],
      acc.2.2 ++ [(r.name, "QUEUED")])

/-- `GitPushRunner._run_operations` over a phase's repository list. -/
def run_operations_push (cancelling : Bool) (repos : List RepoEntry) :
    RunCounters × List RepoEntry × List (String × String) :=
  repos.foldl (push_dispatch_step cancelling) (⟨0, 0, 0⟩, [], [])

/-- The `git_operations` category of
`SettingsManager._get_default_settings` (src/core/settings_manager.py,
lines 148-156). -/
structure GitOperationsSettings where
  powershell_throttle_limit : Nat
  scan_timeout : Nat
  operation_timeout : Nat
  power_countdown_seconds : Nat
  default_power_option : String
  exclude_confirmation_timeout : Nat
  exclude_repos_affect_pull : Bool

/-- The shipped default `git_operations` settings. -/
def default_git_operations : GitOperationsSettings :=
  { powershell_throttle_limit := 30
    scan_timeout := 300
    operation_timeout := 60
    power_countdown_seconds := 15
    default_power_option := "shutdown"
    exclude_confirmation_timeout := 5
    exclude_repos_affect_pull := false }

/-- `BaseScannerWorker._get_timeout` (src/base/base_worker.py, lines
205-207): a constant, reading no configuration. -/
def scanner_timeout : Nat := 120

/-- `BaseOperationWorker._get_timeout` (src/base/base_worker.py, lines
312-314): a constant, reading no configuration. -/
def operation_worker_timeout : Nat := 120

/-- The literal `timeout=10` of the repository count query in
`BaseScannerWorker._count_repositories` (src/base/base_worker.py, line
223). -/
def count_query_timeout : Nat := 10

/-- The scan timeout as the claim reads it: taken from the external
configuration input.  This follows the spec's words ("configurable"), for
comparison with the source's `scanner_timeout`. -/
def spec_configured_scan_timeout (cfg : GitOperationsSettings) : Nat :=
  cfg.scan_timeout

/-- The per-operation timeout as the claim reads it: taken from the external
configuration input, for comparison with the source's
`operation_worker_timeout`. -/
def spec_configured_operation_timeout (cfg : GitOperationsSettings) : Nat :=
  cfg.operation_timeout

/-- C1: every run of the Task template (`BaseWorker.run`) that is not
short-circuited by the cancellation flag emits exactly one terminal result
through the `finished` signal — never zero, never more than one — on every
path: success, nonzero exit code, timeout, parse failure, or generic
exception.  The environment `env` and the hooks range over all of these
paths; `hf` says the cancellation flag is never observed cleared, which in
the sequential semantics of `run` (where only `stop()` can clear it) is
exactly "not short-circuited at the checkpoints". -/
theorem base_run_emits_exactly_one_result {α : Type} (flags : Nat → Bool)
    (hooks : TaskHooks α) (env : RunEnv) (hf : ∀ i, flags i = true) :
    finishedCount (base_run flags hooks env).1 = 1 := by
  cases hp : env.proc with
  | completed rc out err =>
      by_cases hrc : rc = 0
      · cases hpr : hooks.parse_result out.trim env.elapsed with
        | ok r =>
            simp [base_run, hp, hrc, hpr, hf, safe_emit, finishedCount,
              Emission.isFinished]
        | error e =>
            cases e <;>
              simp [base_run, hp, hrc, hpr, hf, safe_emit, finishedCount,
                Emission.isFinished]
      · simp [base_run, hp, hrc, hf, safe_emit, finishedCount,
          Emission.isFinished]
  | timeoutExpired =>
      simp [base_run, hp, hf, safe_emit, finishedCount, Emission.isFinished]
  | raised m =>
      simp [base_run, hp, hf, safe_emit, finishedCount, Emission.isFinished]

/-- Witness for C1: a concrete successful run emits exactly one result. -/
theorem base_run_emits_exactly_one_result_witness :
    finishedCount (base_run (fun _ => true)
      (⟨fun _ _ => Except.ok (5 : Nat), fun _ _ => 0⟩ : TaskHooks Nat)
      ⟨.completed 0 "out" "", 0⟩).1 = 1 :=
  base_run_emits_exactly_one_result _ _ _ (fun _ => rfl)

/-- Once the flag reads false, every later observation also reads false. -/
theorem FlagsMono.stays_false {flags : Nat → Bool} (h : FlagsMono flags)
    {i j : Nat} (hij : i ≤ j) (hi : flags i = false) : flags j = false := by
  cases hj : flags j with
  | false => rfl
  | true => exact absurd (h i j hij hj) (by simp [hi])

/-- C4: if the cancellation flag is observed cleared before a Task's command
completes — at either checkpoint of `BaseWorker.run` or inside the
`_safe_emit` gate — then no terminal result is emitted for that Task: zero
`finished`-callback invocations occur, and every emission attempted through
the safe-emit gate at or after the point where the flag cleared is a no-op.
`hmono` reflects that `stop()` only ever clears the flag; `hobs` says the
flag was read as cleared at some observation point the run passed. -/
theorem cancelled_run_emits_no_result {α : Type} (flags : Nat → Bool)
    (hooks : TaskHooks α) (env : RunEnv) (hmono : FlagsMono flags)
    (hobs : ∃ i, i < (base_run flags hooks env).2 ∧ flags i = false) :
    finishedCount (base_run flags hooks env).1 = 0 ∧
      ∀ i j (e : Emission α), i ≤ j → flags i = false → safe_emit flags j e = [] := by
  refine ⟨?_, fun i j e hij hfi => by
    simp [safe_emit, hmono.stays_false hij hfi]⟩
  obtain ⟨i, hi, hfi⟩ := hobs
  by_cases h0 : flags 0
  · cases hp : env.proc with
    | completed rc out err =>
        by_cases h1 : flags 1
        · by_cases hrc : rc = 0
          · cases hpr : hooks.parse_result out.trim env.elapsed with
            | ok r =>
                have hcnt : (base_run flags hooks env).2 = 3 := by
                  simp [base_run, hp, h0, h1, hrc, hpr]
                rw [hcnt] at hi
                have h2 : flags 2 = false :=
                  hmono.stays_false (by omega) hfi
                simp [base_run, hp, h0, h1, hrc, hpr, safe_emit, h2,
                  finishedCount, Emission.isFinished]
            | error e =>
                have hcnt : (base_run flags hooks env).2 = 4 := by
                  cases e <;> simp [base_run, hp, h0, h1, hrc, hpr]
                rw [hcnt] at hi
                have h3 : flags 3 = false :=
                  hmono.stays_false (by omega) hfi
                cases e <;> cases h2 : flags 2 <;>
                  simp [base_run, hp, h0, h1, hrc, hpr, safe_emit, h2, h3,
                    finishedCount, Emission.isFinished]
          · have hcnt : (base_run flags hooks env).2 = 4 := by
              simp [base_run, hp, h0, h1, hrc]
            rw [hcnt] at hi
            have h3 : flags 3 = false :=
              hmono.stays_false (by omega) hfi
            cases h2 : flags 2 <;>
              simp [base_run, hp, h0, h1, hrc, safe_emit, h2, h3,
                finishedCount, Emission.isFinished]
        · simp [base_run, hp, h0, h1, finishedCount]
    | timeoutExpired =>
        have hcnt : (base_run flags hooks env).2 = 3 := by
          simp [base_run, hp, h0]
        rw [hcnt] at hi
        have h2 : flags 2 = false := hmono.stays_false (by omega) hfi
        cases h1 : flags 1 <;>
          simp [base_run, hp, h0, h1, safe_emit, h2, finishedCount,
            Emission.isFinished]
    | raised m =>
        have hcnt : (base_run flags hooks env).2 = 3 := by
          simp [base_run, hp, h0]
        rw [hcnt] at hi
        have h2 : flags 2 = false := hmono.stays_false (by omega) hfi
        cases h1 : flags 1 <;>
          simp [base_run, hp, h0, h1, safe_emit, h2, finishedCount,
            Emission.isFinished]
  · simp [base_run, h0, finishedCount]

/-- Witness for C4: a run whose flag clears right after the first checkpoint
(observation point 0 reads true, every later one false) emits nothing. -/
theorem cancelled_run_emits_no_result_witness :
    finishedCount (base_run (fun i => i == 0)
      (⟨fun _ _ => Except.ok (5 : Nat), fun _ _ => 0⟩ : TaskHooks Nat)
      ⟨.timeoutExpired, 0⟩).1 = 0 ∧
      ∀ i j (e : Emission Nat), i ≤ j → (fun i => i == 0) i = false →
        safe_emit (fun i => i == 0) j e = [] :=
  cancelled_run_emits_no_result _ _ _
    (fun i j hij ht => by
      simp only [beq_iff_eq] at ht ⊢
      omega)
    ⟨1, by refine ⟨?_, rfl⟩; simp [base_run]⟩

/-- C3: whenever execution of the Task template fails — nonzero exit code,
raised timeout, raised malformed-output (JSON decode) fault, or any other
raised exception, whether from the subprocess step or from parsing — `run()`
emits the task's error result with the classified message ("" for nonzero
exit, alongside an error event containing stderr truncated to at most 200
characters; "Timeout" for a timeout; "Parse error" for malformed output; the
exception text otherwise).  `base_run` is a total function, so no exception
propagates out of it; each conjunct pins down the exact emission list of one
failure path (an uncancelled run, `flags` constantly true). -/
theorem base_run_error_classification {α : Type} (hooks : TaskHooks α)
    (env : RunEnv) :
    (∀ rc out err, env.proc = .completed rc out err → rc ≠ 0 →
        (base_run (fun _ => true) hooks env).1 =
          [.error ("PowerShell error: " ++ err.take 200),
           .finished (hooks.get_error_result "" env.elapsed)]) ∧
    (env.proc = .timeoutExpired →
        (base_run (fun _ => true) hooks env).1 =
          [.error "Timeout: Operation took too long",
           .finished (hooks.get_error_result "Timeout" env.elapsed)]) ∧
    (∀ out err m, env.proc = .completed 0 out err →
        hooks.parse_result out.trim env.elapsed = .error (.jsonDecodeError m) →
        (base_run (fun _ => true) hooks env).1 =
          [.error ("Failed to parse results: " ++ m),
           .finished (hooks.get_error_result "Parse error" env.elapsed)]) ∧
    (∀ m, env.proc = .raised m →
        (base_run (fun _ => true) hooks env).1 =
          [.error ("Unexpected error: " ++ m.take 200),
           .finished (hooks.get_error_result m env.elapsed)]) ∧
    (∀ out err, env.proc = .completed 0 out err →
        hooks.parse_result out.trim env.elapsed = .error .timeoutExpired →
        (base_run (fun _ => true) hooks env).1 =
          [.error "Timeout: Operation took too long",
           .finished (hooks.get_error_result "Timeout" env.elapsed)]) ∧
    (∀ out err m, env.proc = .completed 0 out err →
        hooks.parse_result out.trim env.elapsed = .error (.raised m) →
        (base_run (fun _ => true) hooks env).1 =
          [.error ("Unexpected error: " ++ m.take 200),
           .finished (hooks.get_error_result m env.elapsed)]) := by
  refine ⟨?_, ?_, ?_, ?_, ?_, ?_⟩
  · intro rc out err hp hrc
    simp [base_run, hp, hrc, safe_emit]
  · intro hp
    simp [base_run, hp, safe_emit]
  · intro out err m hp hpr
    simp [base_run, hp, hpr, safe_emit]
  · intro m hp
    simp [base_run, hp, safe_emit]
  · intro out err hp hpr
    simp [base_run, hp, hpr, safe_emit]
  · intro out err m hp hpr
    simp [base_run, hp, hpr, safe_emit]

/-- Witness for C3: one concrete instantiation of each of the four failure
classes of the claim (nonzero exit, timeout, JSON decode failure during
parsing, and a generic exception). -/
theorem base_run_error_classification_witness :
    ((base_run (fun _ => true)
        (⟨fun _ _ => Except.ok (5 : Nat), fun _ _ => 0⟩ : TaskHooks Nat)
        ⟨.completed 1 "out" "boom", 0⟩).1 =
      [.error ("PowerShell error: " ++ String.take "boom" 200),
       .finished 0]) ∧
    ((base_run (fun _ => true)
        (⟨fun _ _ => Except.ok (5 : Nat), fun _ _ => 0⟩ : TaskHooks Nat)
        ⟨.timeoutExpired, 0⟩).1 =
      [.error "Timeout: Operation took too long", .finished 0]) ∧
    ((base_run (fun _ => true)
        (⟨fun _ _ => Except.error (ParseExc.jsonDecodeError "Expecting value"),
          fun _ _ => 0⟩ : TaskHooks Nat)
        ⟨.completed 0 "not json" "", 0⟩).1 =
      [.error ("Failed to parse results: " ++ "Expecting value"),
       .finished 0]) ∧
    ((base_run (fun _ => true)
        (⟨fun _ _ => Except.ok (5 : Nat), fun _ _ => 0⟩ : TaskHooks Nat)
        ⟨.raised "oops", 0⟩).1 =
      [.error ("Unexpected error: " ++ String.take "oops" 200),
       .finished 0]) :=
  ⟨(base_run_error_classification _ _).1 1 "out" "boom" rfl (by decide),
   (base_run_error_classification _ _).2.1 rfl,
   (base_run_error_classification _ _).2.2.1 "not json" ""
     "Expecting value" rfl rfl,
   (base_run_error_classification _ _).2.2.2.1 "oops" rfl⟩

/-- Anything that came out of a `_safe_emit` call is the emission handed to
it. -/
theorem mem_safe_emit {α : Type} {flags : Nat → Bool} {i : Nat}
    {x e : Emission α} (h : e ∈ safe_emit flags i x) : e = x := by
  by_cases hf : flags i
  · simpa [safe_emit, hf] using h
  · simp [safe_emit, hf] at h

/-- Under any failure path, the single terminal emission of `BaseWorker.run`
is an error result built by `_get_error_result` at the run's elapsed time. -/
theorem base_run_fail_finished {α : Type} {flags : Nat → Bool}
    {hooks : TaskHooks α} {env : RunEnv} {r : α}
    (hfail : RunFails hooks env)
    (hr : Emission.finished r ∈ (base_run flags hooks env).1) :
    ∃ m, r = hooks.get_error_result m env.elapsed := by
  obtain ⟨proc, elapsed⟩ := env
  by_cases h0 : flags 0
  · rcases hfail with hp | ⟨m, hp⟩ | ⟨rc, out, err, hp, hrc⟩ |
      ⟨out, err, e, hp, hpe⟩
    · simp only [RunEnv.proc] at hp
      subst hp
      cases h1 : flags 1 <;> cases h2 : flags 2 <;>
          simp [base_run, h0, h1, h2, safe_emit] at hr <;>
        exact ⟨"Timeout", hr⟩
    · simp only [RunEnv.proc] at hp
      subst hp
      cases h1 : flags 1 <;> cases h2 : flags 2 <;>
          simp [base_run, h0, h1, h2, safe_emit] at hr <;>
        exact ⟨m, hr⟩
    · simp only [RunEnv.proc] at hp
      subst hp
      cases h1 : flags 1 <;> cases h2 : flags 2 <;> cases h3 : flags 3 <;>
          simp [base_run, h0, h1, h2, h3, hrc, safe_emit] at hr <;>
        exact ⟨"", hr⟩
    · simp only [RunEnv.proc] at hp
      subst hp
      cases e with
      | timeoutExpired =>
          cases h1 : flags 1 <;> cases h2 : flags 2 <;> cases h3 : flags 3 <;>
              simp [base_run, h0, h1, h2, h3, hpe, safe_emit] at hr <;>
            exact ⟨"Timeout", hr⟩
      | jsonDecodeError m =>
          cases h1 : flags 1 <;> cases h2 : flags 2 <;> cases h3 : flags 3 <;>
              simp [base_run, h0, h1, h2, h3, hpe, safe_emit] at hr <;>
            exact ⟨"Parse error", hr⟩
      | raised m =>
          cases h1 : flags 1 <;> cases h2 : flags 2 <;> cases h3 : flags 3 <;>
              simp [base_run, h0, h1, h2, h3, hpe, safe_emit] at hr <;>
            exact ⟨m, hr⟩
  · simp [base_run, h0] at hr

/-- C10: for a scanner task, on every failure path (nonzero exit code,
timeout, parse error, or generic exception) the terminal result emitted is a
`ScanResult` whose `repos` list is empty — exactly what a successful scan
that found no out-of-sync repositories emits (the parse of the literal `[]`
wire payload, second conjunct), so the two are indistinguishable at the
`finished` signal. -/
theorem failed_scan_yields_empty_repos (flags : Nat → Bool)
    (loads : String → Except String Json) (countProc : ProcOutcome)
    (env : RunEnv) (hfail : RunFails (scanner_hooks loads) env) :
    (∀ r, Emission.finished r ∈ scanner_run flags loads countProc env →
      r.repos = []) ∧
    scanner_parse_result loads "[]" env.elapsed =
      Except.ok ⟨[], env.elapsed⟩ := by
  refine ⟨?_, by simp [scanner_parse_result]⟩
  intro r hr
  have hprog : ∀ h : Emission.finished r ∈
      safe_emit flags 0 (Emission.progress 0 (count_repositories countProc)),
      False := fun h => by simpa using mem_safe_emit h
  by_cases h1 : flags 1
  · simp only [scanner_run, h1, if_true] at hr
    rcases List.mem_append.1 hr with h | h
    · exact absurd h (hprog)
    · obtain ⟨m, hm⟩ := base_run_fail_finished hfail h
      subst hm
      rfl
  · simp only [scanner_run, h1, if_false] at hr
    exact absurd hr (hprog)

/-- Witness for C10: with a decoder that always fails and a timed-out scan
command, the scanner's terminal emission carries no repositories, and the
empty wire payload parses to the same empty repository list. -/
theorem failed_scan_yields_empty_repos_witness :
    (∀ r, Emission.finished r ∈
        scanner_run (fun _ => true) (fun _ => Except.error "Expecting value")
          (.completed 0 "2" "") ⟨.timeoutExpired, 0⟩ →
      r.repos = []) ∧
    scanner_parse_result (fun _ => Except.error "Expecting value") "[]" 0 =
      Except.ok ⟨[], 0⟩ :=
  failed_scan_yields_empty_repos _ _ _ _ (Or.inl rfl)

/-- C5: the scanner's parse function treats a single decoded JSON object
identically to the one-element array containing it (first conjunct), and an
array payload of n objects yields the `RepoStatus` of each object in order
(second conjunct). -/
theorem scan_scalar_array_normalization (loads : String → Except String Json)
    (d : Rat) :
    (∀ s₁ s₂ entries, s₁ ≠ "" → s₁ ≠ "[]" → s₂ ≠ "" → s₂ ≠ "[]" →
        loads s₁ = .ok (.obj entries) →
        loads s₂ = .ok (.arr [.obj entries]) →
        scanner_parse_result loads s₁ d = scanner_parse_result loads s₂ d) ∧
    (∀ s items rs, s ≠ "" → s ≠ "[]" →
        loads s = .ok (.arr items) →
        items.mapM create_repo_status = .ok rs →
        scanner_parse_result loads s d = .ok ⟨rs, d⟩) := by
  constructor
  · intro s₁ s₂ entries h₁ h₁' h₂ h₂' hl₁ hl₂
    simp [scanner_parse_result, h₁, h₁', h₂, h₂', hl₁, hl₂]
  · intro s items rs h h' hl hm
    simp only [scanner_parse_result,
      if_neg (show ¬(s = "" ∨ s = "[]") by simp [h, h']), hl]
    rw [hm]
    rfl

/-- Witness for C5: a two-entry repository object wrapped as a scalar parses
the same as its one-element array form, and a two-element array parses to
the two statuses in order. -/
theorem scan_scalar_array_normalization_witness :
    (scanner_parse_result
        (fun s =>
          if s = "OBJ" then
            .ok (.obj [("Name", .str "dotfiles"), ("Path", .str "C:/g/dotfiles"),
              ("Behind", .num 1)])
          else if s = "ARR" then
            .ok (.arr [.obj [("Name", .str "dotfiles"),
              ("Path", .str "C:/g/dotfiles"), ("Behind", .num 1)]])
          else if s = "ARR2" then
            .ok (.arr [.obj [("Name", .str "dotfiles"),
                ("Path", .str "C:/g/dotfiles"), ("Behind", .num 1)],
              .obj [("Name", .str "nvim"), ("Path", .str "C:/g/nvim"),
                ("Behind", .num 3)]])
          else .error "Expecting value")
        "OBJ" 0 =
      scanner_parse_result
        (fun s =>
          if s = "OBJ" then
            .ok (.obj [("Name", .str "dotfiles"), ("Path", .str "C:/g/dotfiles"),
              ("Behind", .num 1)])
          else if s = "ARR" then
            .ok (.arr [.obj [("Name", .str "dotfiles"),
              ("Path", .str "C:/g/dotfiles"), ("Behind", .num 1)]])
          else if s = "ARR2" then
            .ok (.arr [.obj [("Name", .str "dotfiles"),
                ("Path", .str "C:/g/dotfiles"), ("Behind", .num 1)],
              .obj [("Name", .str "nvim"), ("Path", .str "C:/g/nvim"),
                ("Behind", .num 3)]])
          else .error "Expecting value")
        "ARR" 0) ∧
    scanner_parse_result
        (fun s =>
          if s = "OBJ" then
            .ok (.obj [("Name", .str "dotfiles"), ("Path", .str "C:/g/dotfiles"),
              ("Behind", .num 1)])
          else if s = "ARR" then
            .ok (.arr [.obj [("Name", .str "dotfiles"),
              ("Path", .str "C:/g/dotfiles"), ("Behind", .num 1)]])
          else if s = "ARR2" then
            .ok (.arr [.obj [("Name", .str "dotfiles"),
                ("Path", .str "C:/g/dotfiles"), ("Behind", .num 1)],
              .obj [("Name", .str "nvim"), ("Path", .str "C:/g/nvim"),
                ("Behind", .num 3)]])
          else .error "Expecting value")
        "ARR2" 0 =
      .ok ⟨[⟨.str "dotfiles", .str "C:/g/dotfiles", .num 1⟩,
        ⟨.str "nvim", .str "C:/g/nvim", .num 3⟩], 0⟩ :=
  ⟨(scan_scalar_array_normalization _ 0).1 "OBJ" "ARR"
      [("Name", .str "dotfiles"), ("Path", .str "C:/g/dotfiles"),
        ("Behind", .num 1)]
      (by decide) (by decide) (by decide) (by decide) rfl rfl,
   (scan_scalar_array_normalization _ 0).2 "ARR2"
      [.obj [("Name", .str "dotfiles"), ("Path", .str "C:/g/dotfiles"),
          ("Behind", .num 1)],
        .obj [("Name", .str "nvim"), ("Path", .str "C:/g/nvim"),
          ("Behind", .num 3)]]
      [⟨.str "dotfiles", .str "C:/g/dotfiles", .num 1⟩,
        ⟨.str "nvim", .str "C:/g/nvim", .num 3⟩]
      (by decide) (by decide) rfl rfl⟩

/-- Composing the pipeline collapse with the `__post_init__` normalization
gives the delivered `conflict_files` characterization. -/
theorem delivered_conflict_files_eq (segments : List String) :
    (match pipelineToJson ((segments.filter (· ≠ "")).map Json.str) with
      | Json.null => Json.arr []
      | v => v) = delivered_conflict_files segments := by
  unfold delivered_conflict_files pipelineToJson
  rcases segments.filter (· ≠ "") with _ | ⟨f, _ | ⟨g, rest⟩⟩ <;> rfl

/-- C6, counterexample at the claim's own example input: with exactly one
conflicted file — `git status --porcelain` reporting `UU file.txt`, the
diff output `file.txt` arriving as the LF-split segments of its
`Out-String` form — the status is CONFLICT as claimed, but the PowerShell
pipeline assignment collapses the single surviving segment to a scalar, so
`conflict_files` is the bare JSON string "file.txt\r" (with the carriage
return left by splitting the CRLF-joined output), not the one-element list
["file.txt"] the claim states. -/
theorem pull_conflict_files_scalar_counterexample :
    (pull_create_result_from_data "api-project" "C:/g/api-project"
        (pull_script "api-project"
          ⟨true, false,
            "error: Your local changes to the following files would be overwritten by merge",
            true, "Saved working directory", true, "Updating 1a2b..3c4d",
            false, "CONFLICT (content): Merge conflict in file.txt",
            ["UU file.txt"], ["file.txt\r", ""]⟩)).status =
      .str "CONFLICT" ∧
    (pull_create_result_from_data "api-project" "C:/g/api-project"
        (pull_script "api-project"
          ⟨true, false,
            "error: Your local changes to the following files would be overwritten by merge",
            true, "Saved working directory", true, "Updating 1a2b..3c4d",
            false, "CONFLICT (content): Merge conflict in file.txt",
            ["UU file.txt"], ["file.txt\r", ""]⟩)).conflict_files =
      .str "file.txt\r" ∧
    (pull_create_result_from_data "api-project" "C:/g/api-project"
        (pull_script "api-project"
          ⟨true, false,
            "error: Your local changes to the following files would be overwritten by merge",
            true, "Saved working directory", true, "Updating 1a2b..3c4d",
            false, "CONFLICT (content): Merge conflict in file.txt",
            ["UU file.txt"], ["file.txt\r", ""]⟩)).conflict_files ≠
      .arr [.str "file.txt"] :=
  ⟨rfl, rfl, fun h =>
    Json.noConfusion
      (h : Json.str "file.txt\r" = Json.arr [Json.str "file.txt"])⟩

/-- C6, amended: in a pull where the first `git pull` fails with
local-change markers, stash and retry-pull succeed and the stash pop fails,
the result is `CONFLICT` exactly when `git status --porcelain` reports an
unmerged marker (`UU`, `AA` or `DD`), and `conflict_files` then carries the
surviving LF-split segments of the `git diff --name-only --diff-filter=U`
output — as a JSON array only when two or more files conflict, as a bare
string (with its trailing carriage return) for a single file, and as `[]`
(null on the wire, normalized by `PullResult.__post_init__`) for none;
without such a marker the result is `ERROR`
("Failed to restore stash: ..."), not `CONFLICT`. -/
theorem pull_conflict_detection (repoName repoPath : String)
    (env : GitPullEnv) (hEx : env.repoExists = true)
    (hPull : env.pullOk = false)
    (hLocal : matchesLocalChanges env.pullOut = true)
    (hStash : env.stashOk = true) (hRetry : env.retryOk = true)
    (hPop : env.popOk = false) :
    (hasUnmergedMarker env.statusLines = true →
      (pull_create_result_from_data repoName repoPath
          (pull_script repoName env)).status = .str "CONFLICT" ∧
      (pull_create_result_from_data repoName repoPath
          (pull_script repoName env)).conflict_files =
        delivered_conflict_files env.diffLines) ∧
    (hasUnmergedMarker env.statusLines = false →
      (pull_create_result_from_data repoName repoPath
          (pull_script repoName env)).status = .str "ERROR" ∧
      (pull_create_result_from_data repoName repoPath
          (pull_script repoName env)).status ≠ .str "CONFLICT" ∧
      (pull_create_result_from_data repoName repoPath
          (pull_script repoName env)).error_message =
        .str ("Failed to restore stash: " ++ env.popOut)) := by
  constructor
  · intro hU
    constructor
    · simp [pull_script, pull_create_result_from_data, dictGet, lookupEntry,
        hEx, hPull, hLocal, hStash, hRetry, hPop, hU]
    · have h1 : (pull_create_result_from_data repoName repoPath
            (pull_script repoName env)).conflict_files =
          (match pipelineToJson
              ((env.diffLines.filter (· ≠ "")).map Json.str) with
            | Json.null => Json.arr []
            | v => v) := by
        simp [pull_script, pull_create_result_from_data, dictGet,
          lookupEntry, hEx, hPull, hLocal, hStash, hRetry, hPop, hU]
      rw [h1, delivered_conflict_files_eq]
  · intro hU
    refine ⟨?_, ?_, ?_⟩ <;>
      simp [pull_script, pull_create_result_from_data, dictGet, lookupEntry,
        hEx, hPull, hLocal, hStash, hRetry, hPop, hU]

/-- Witness for the amended C6: a stash-pop failure with two conflicted
files yields a CONFLICT result whose `conflict_files` is the array of the
two surviving diff segments, and the no-marker variant yields ERROR. -/
theorem pull_conflict_detection_witness :
    ((pull_create_result_from_data "api-project" "C:/g/api-project"
        (pull_script "api-project"
          ⟨true, false,
            "error: Your local changes to the following files would be overwritten by merge",
            true, "Saved working directory", true, "Updating 1a2b..3c4d",
            false, "CONFLICT (content): Merge conflict in config.json",
            ["UU config.json", "UU data.json"],
            ["config.json\r", "data.json\r", ""]⟩)).status =
      .str "CONFLICT" ∧
    (pull_create_result_from_data "api-project" "C:/g/api-project"
        (pull_script "api-project"
          ⟨true, false,
            "error: Your local changes to the following files would be overwritten by merge",
            true, "Saved working directory", true, "Updating 1a2b..3c4d",
            false, "CONFLICT (content): Merge conflict in config.json",
            ["UU config.json", "UU data.json"],
            ["config.json\r", "data.json\r", ""]⟩)).conflict_files =
      delivered_conflict_files ["config.json\r", "data.json\r", ""]) ∧
    ((pull_create_result_from_data "dotfiles" "C:/g/dotfiles"
        (pull_script "dotfiles"
          ⟨true, false,
            "error: Your local changes to the following files would be overwritten by merge",
            true, "Saved working directory", true, "Updating 5e6f..7a8b",
            false, "error: could not restore untracked files from stash",
            ["M  notes.txt"], [""]⟩)).status = .str "ERROR" ∧
    (pull_create_result_from_data "dotfiles" "C:/g/dotfiles"
        (pull_script "dotfiles"
          ⟨true, false,
            "error: Your local changes to the following files would be overwritten by merge",
            true, "Saved working directory", true, "Updating 5e6f..7a8b",
            false, "error: could not restore untracked files from stash",
            ["M  notes.txt"], [""]⟩)).status ≠ .str "CONFLICT" ∧
    (pull_create_result_from_data "dotfiles" "C:/g/dotfiles"
        (pull_script "dotfiles"
          ⟨true, false,
            "error: Your local changes to the following files would be overwritten by merge",
            true, "Saved working directory", true, "Updating 5e6f..7a8b",
            false, "error: could not restore untracked files from stash",
            ["M  notes.txt"], [""]⟩)).error_message =
      .str ("Failed to restore stash: " ++
        "error: could not restore untracked files from stash")) :=
  ⟨(pull_conflict_detection "api-project" "C:/g/api-project" _
      rfl rfl (by decide) rfl rfl rfl).1 (by decide),
   (pull_conflict_detection "dotfiles" "C:/g/dotfiles" _
      rfl rfl (by decide) rfl rfl rfl).2 (by decide)⟩

/-- Splitting off the head of a phase's event list in `skipped_count`. -/
theorem skipped_count_cons (e : RepoEvent) (es : List RepoEvent) :
    skipped_count (e :: es) =
      (if RepoEvent.isSkipped e then 1 else 0) + skipped_count es := by
  simp only [skipped_count, List.filter_cons]
  split <;> (simp; try omega)

/-- Pull-phase counters after folding a phase's events from any start. -/
theorem pull_count_foldl (es : List RepoEvent) (c : RunCounters) :
    (es.foldl pull_count_step c).completed = c.completed + es.length ∧
    (es.foldl pull_count_step c).success + (es.foldl pull_count_step c).failed
      = c.success + c.failed + es.length := by
  induction es generalizing c with
  | nil => simp
  | cons e rest ih =>
      simp only [List.foldl_cons, List.length_cons]
      obtain ⟨h1, h2⟩ := ih (pull_count_step c e)
      cases e with
      | missing =>
          simp only [pull_count_step] at h1 h2 ⊢
          exact ⟨by omega, by omega⟩
      | finished st =>
          by_cases hs : st = "SUCCESS"
          · simp only [pull_count_step, if_pos hs] at h1 h2 ⊢
            exact ⟨by omega, by omega⟩
          · simp only [pull_count_step, if_neg hs] at h1 h2 ⊢
            exact ⟨by omega, by omega⟩

/-- Push-phase counters after folding a phase's events from any start. -/
theorem push_count_foldl (es : List RepoEvent) (c : RunCounters) :
    (es.foldl push_count_step c).completed = c.completed + es.length ∧
    (es.foldl push_count_step c).success + (es.foldl push_count_step c).failed
        + skipped_count es
      = c.success + c.failed + es.length := by
  induction es generalizing c with
  | nil => simp [skipped_count]
  | cons e rest ih =>
      simp only [List.foldl_cons, List.length_cons, skipped_count_cons]
      obtain ⟨h1, h2⟩ := ih (push_count_step c e)
      cases e with
      | missing =>
          have hsk : RepoEvent.isSkipped RepoEvent.missing = false := rfl
          simp only [push_count_step] at h1 h2 ⊢
          simp only [hsk, Bool.false_eq_true, if_false]
          exact ⟨by omega, by omega⟩
      | finished st =>
          by_cases hs : st = "SUCCESS"
          · have hsk : RepoEvent.isSkipped (.finished st) = false := by
              simp [RepoEvent.isSkipped, hs]
            simp only [push_count_step, if_pos hs] at h1 h2 ⊢
            simp only [hsk, Bool.false_eq_true, if_false]
            exact ⟨by omega, by omega⟩
          · by_cases hk : st = "SKIPPED" ∨ st = "CANCELLED"
            · have hsk : RepoEvent.isSkipped (.finished st) = true := by
                rcases hk with hk | hk <;> simp [RepoEvent.isSkipped, hk]
              simp only [push_count_step, if_neg hs, if_pos hk] at h1 h2 ⊢
              simp only [hsk, if_true]
              exact ⟨by omega, by omega⟩
            · have hsk : RepoEvent.isSkipped (.finished st) = false := by
                have ha : st ≠ "SKIPPED" := fun h => hk (Or.inl h)
                have hb : st ≠ "CANCELLED" := fun h => hk (Or.inr h)
                simp [RepoEvent.isSkipped, ha, hb]
              simp only [push_count_step, if_neg hs, if_neg hk] at h1 h2 ⊢
              simp only [hsk, Bool.false_eq_true, if_false]
              exact ⟨by omega, by omega⟩

/-- C2: for every completed phase — one terminal event per dispatched
repository, as established for the workers by C1 — the counters satisfy
`completed = success + failed + skipped` (with no skips possible in a pull
phase) and `completed` equals the number of repositories dispatched; and at
every point during the phase (any processed prefix of the events),
`completed` never exceeds that number. -/
theorem phase_counters_invariant (pullEvents pushEvents : List RepoEvent) :
    ((pullEvents.foldl pull_count_step ⟨0, 0, 0⟩).completed =
        (pullEvents.foldl pull_count_step ⟨0, 0, 0⟩).success +
          (pullEvents.foldl pull_count_step ⟨0, 0, 0⟩).failed ∧
      (pullEvents.foldl pull_count_step ⟨0, 0, 0⟩).completed =
        pullEvents.length) ∧
    ((pushEvents.foldl push_count_step ⟨0, 0, 0⟩).completed =
        (pushEvents.foldl push_count_step ⟨0, 0, 0⟩).success +
          (pushEvents.foldl push_count_step ⟨0, 0, 0⟩).failed +
          skipped_count pushEvents ∧
      (pushEvents.foldl push_count_step ⟨0, 0, 0⟩).completed =
        pushEvents.length) ∧
    (∀ n,
      ((pullEvents.take n).foldl pull_count_step ⟨0, 0, 0⟩).completed ≤
        pullEvents.length ∧
      ((pushEvents.take n).foldl push_count_step ⟨0, 0, 0⟩).completed ≤
        pushEvents.length) := by
  obtain ⟨hp1, hp2⟩ := pull_count_foldl pullEvents ⟨0, 0, 0⟩
  obtain ⟨hq1, hq2⟩ := push_count_foldl pushEvents ⟨0, 0, 0⟩
  simp only [Nat.zero_add] at hp1 hp2 hq1 hq2
  refine ⟨⟨by omega, by omega⟩, ⟨by omega, by omega⟩, fun n => ?_⟩
  obtain ⟨ht1, _⟩ := pull_count_foldl (pullEvents.take n) ⟨0, 0, 0⟩
  obtain ⟨ht2, _⟩ := push_count_foldl (pushEvents.take n) ⟨0, 0, 0⟩
  simp only [Nat.zero_add] at ht1 ht2
  have hl1 : (pullEvents.take n).length ≤ pullEvents.length := by
    simp [List.length_take]
  have hl2 : (pushEvents.take n).length ≤ pushEvents.length := by
    simp [List.length_take]
  exact ⟨by omega, by omega⟩

/-- C7: for a repository reported excluded by the exclusion policy, if the
confirmation gate's countdown expires with no user decision, the default is
skip: the push completes early with a `SKIPPED`, `is_excluded` result and no
git push worker is dispatched. -/
theorem excluded_push_timeout_skips (excluded : Bool)
    (decision : Option String) (rn rp : String) (hx : excluded = true)
    (hd : decision = none) :
    execute_push excluded decision rn rp =
      .finishedEarly
        ⟨"SKIPPED", rn, rp, "Skipped (excluded repository)", true⟩ ∧
    ∀ n p, execute_push excluded decision rn rp ≠ PushDispatch.worker n p := by
  subst hx hd
  refine ⟨rfl, fun n p h => ?_⟩
  simp [execute_push, dialog_final_choice, auto_skip, get_choice] at h

/-- Witness for C7: the excluded repository `secret-repo` with an expired
countdown is skipped and marked excluded, with no worker dispatched. -/
theorem excluded_push_timeout_skips_witness :
    execute_push true none "secret-repo" "C:/g/secret-repo" =
      .finishedEarly
        ⟨"SKIPPED", "secret-repo", "C:/g/secret-repo",
          "Skipped (excluded repository)", true⟩ ∧
    ∀ n p, execute_push true none "secret-repo" "C:/g/secret-repo" ≠
      PushDispatch.worker n p :=
  excluded_push_timeout_skips true none "secret-repo" "C:/g/secret-repo"
    rfl rfl

/-- Counters of the pull dispatch loop from an arbitrary accumulator. -/
theorem pull_dispatch_counters (repos : List RepoEntry) (c : RunCounters)
    (d : List RepoEntry) (cards : List (String × String)) :
    (repos.foldl pull_dispatch_step (c, d, cards)).1 =
      ⟨c.completed + (repos.filter repo_missing).length, c.success,
        c.failed + (repos.filter repo_missing).length⟩ := by
  induction repos generalizing c d cards with
  | nil => simp
  | cons r rest ih =>
      by_cases hm : repo_missing r <;>
        simp only [List.foldl_cons, pull_dispatch_step, hm,
          Bool.false_eq_true, ite_true, ite_false] <;>
        rw [ih] <;>
        (simp [List.filter_cons, hm, RunCounters.mk.injEq]
         all_goals omega)

/-- Worker dispatch list of the pull dispatch loop. -/
theorem pull_dispatch_workers (repos : List RepoEntry) (c : RunCounters)
    (d : List RepoEntry) (cards : List (String × String)) :
    (repos.foldl pull_dispatch_step (c, d, cards)).2.1 =
      d ++ repos.filter (fun r => !repo_missing r) := by
  induction repos generalizing c d cards with
  | nil => simp
  | cons r rest ih =>
      by_cases hm : repo_missing r <;>
        simp only [List.foldl_cons, pull_dispatch_step, hm,
          Bool.false_eq_true, ite_true, ite_false] <;>
        rw [ih] <;>
        simp [List.filter_cons, hm]

/-- Card updates of the pull dispatch loop. -/
theorem pull_dispatch_cards (repos : List RepoEntry) (c : RunCounters)
    (d : List RepoEntry) (cards : List (String × String)) :
    (repos.foldl pull_dispatch_step (c, d, cards)).2.2 =
      cards ++ repos.map fun r =>
        (r.name, if repo_missing r then "MISSING" else "QUEUED") := by
  induction repos generalizing c d cards with
  | nil => simp
  | cons r rest ih =>
      by_cases hm : repo_missing r <;>
        simp only [List.foldl_cons, pull_dispatch_step, hm,
          Bool.false_eq_true, ite_true, ite_false] <;>
        rw [ih] <;>
        simp [List.map_cons, hm]

/-- Counters of the push dispatch loop from an arbitrary accumulator. -/
theorem push_dispatch_counters (cancelling : Bool) (repos : List RepoEntry)
    (c : RunCounters) (d : List RepoEntry)
    (cards : List (String × String)) :
    (repos.foldl (push_dispatch_step cancelling) (c, d, cards)).1 =
      ⟨c.completed + (repos.filter repo_missing).length, c.success,
        c.failed + (repos.filter repo_missing).length⟩ := by
  induction repos generalizing c d cards with
  | nil => simp
  | cons r rest ih =>
      by_cases hm : repo_missing r <;>
        simp only [List.foldl_cons, push_dispatch_step, hm,
          Bool.false_eq_true, ite_true, ite_false] <;>
        rw [ih] <;>
        (simp [List.filter_cons, hm, RunCounters.mk.injEq]
         all_goals omega)

/-- Worker dispatch list of the push dispatch loop. -/
theorem push_dispatch_workers (cancelling : Bool) (repos : List RepoEntry)
    (c : RunCounters) (d : List RepoEntry)
    (cards : List (String × String)) :
    (repos.foldl (push_dispatch_step cancelling) (c, d, cards)).2.1 =
      d ++ (if cancelling then []
        else repos.filter (fun r => !repo_missing r)) := by
  induction repos generalizing c d cards with
  | nil => cases cancelling <;> simp
  | cons r rest ih =>
      by_cases hm : repo_missing r <;>
        simp only [List.foldl_cons, push_dispatch_step, hm,
          Bool.false_eq_true, ite_true, ite_false] <;>
        rw [ih] <;>
        cases cancelling <;>
        simp [List.filter_cons, hm]

/-- Card updates of the push dispatch loop. -/
theorem push_dispatch_cards (cancelling : Bool) (repos : List RepoEntry)
    (c : RunCounters) (d : List RepoEntry)
    (cards : List (String × String)) :
    (repos.foldl (push_dispatch_step cancelling) (c, d, cards)).2.2 =
      cards ++ repos.map fun r =>
        (r.name, if repo_missing r then "MISSING" else "QUEUED") := by
  induction repos generalizing c d cards with
  | nil => simp
  | cons r rest ih =>
      by_cases hm : repo_missing r <;>
        simp only [List.foldl_cons, push_dispatch_step, hm,
          Bool.false_eq_true, ite_true, ite_false] <;>
        rw [ih] <;>
        simp [List.map_cons, hm]

/-- C8: a repository whose path is not a directory or whose `.git`
subdirectory is absent when operations start is terminal at the runner: its
card transitions to MISSING, it is never handed to a worker (so no git
command runs for it), and it is counted in both `completed` and `failed`.
The closed forms show the dispatched list is exactly the non-missing
repositories and the counters count exactly the missing ones, for both
runners (the push loop with any value of its cancellation flag). -/
theorem missing_repo_is_terminal (repos : List RepoEntry)
    (cancelling : Bool) :
    ((run_operations_pull repos).2.1 =
        repos.filter (fun r => !repo_missing r) ∧
      (run_operations_pull repos).2.2 = repos.map (fun r =>
        (r.name, if repo_missing r then "MISSING" else "QUEUED")) ∧
      (run_operations_pull repos).1 =
        ⟨(repos.filter repo_missing).length, 0,
          (repos.filter repo_missing).length⟩) ∧
    ((run_operations_push cancelling repos).2.1 =
        (if cancelling then []
          else repos.filter (fun r => !repo_missing r)) ∧
      (run_operations_push cancelling repos).2.2 = repos.map (fun r =>
        (r.name, if repo_missing r then "MISSING" else "QUEUED")) ∧
      (run_operations_push cancelling repos).1 =
        ⟨(repos.filter repo_missing).length, 0,
          (repos.filter repo_missing).length⟩) ∧
    (∀ r ∈ repos, repo_missing r = true →
      r ∉ (run_operations_pull repos).2.1 ∧
      r ∉ (run_operations_push cancelling repos).2.1) := by
  have hpw := pull_dispatch_workers repos ⟨0, 0, 0⟩ [] []
  have hpc := pull_dispatch_cards repos ⟨0, 0, 0⟩ [] []
  have hpk := pull_dispatch_counters repos ⟨0, 0, 0⟩ [] []
  have hqw := push_dispatch_workers cancelling repos ⟨0, 0, 0⟩ [] []
  have hqc := push_dispatch_cards cancelling repos ⟨0, 0, 0⟩ [] []
  have hqk := push_dispatch_counters cancelling repos ⟨0, 0, 0⟩ [] []
  simp only [List.nil_append] at hpw hpc hqw hqc
  refine ⟨⟨?_, ?_, ?_⟩, ⟨?_, ?_, ?_⟩, fun r hr hm => ⟨?_, ?_⟩⟩
  · exact hpw
  · exact hpc
  · unfold run_operations_pull
    rw [hpk]
    simp
  · exact hqw
  · exact hqc
  · unfold run_operations_push
    rw [hqk]
    simp
  · intro hmem
    unfold run_operations_pull at hmem
    rw [hpw] at hmem
    have := (List.mem_filter.1 hmem).2
    simp [hm] at this
  · intro hmem
    unfold run_operations_push at hmem
    rw [hqw] at hmem
    cases cancelling with
    | true => simp at hmem
    | false =>
        simp only [Bool.false_eq_true, ite_false] at hmem
        have := (List.mem_filter.1 hmem).2
        simp [hm] at this

/-- Witness for C8: with one missing and one present repository, only the
present one is dispatched, the missing one's card is MISSING, and the
counters register one completed failure before any worker runs. -/
theorem missing_repo_is_terminal_witness :
    (run_operations_pull
        [⟨"ghost", false, false⟩, ⟨"dotfiles", true, true⟩]).2.1 =
      [⟨"dotfiles", true, true⟩] ∧
    (run_operations_pull
        [⟨"ghost", false, false⟩, ⟨"dotfiles", true, true⟩]).2.2 =
      [("ghost", "MISSING"), ("dotfiles", "QUEUED")] ∧
    (run_operations_pull
        [⟨"ghost", false, false⟩, ⟨"dotfiles", true, true⟩]).1 =
      ⟨1, 0, 1⟩ ∧
    (⟨"ghost", false, false⟩ : RepoEntry) ∉
      (run_operations_pull
        [⟨"ghost", false, false⟩, ⟨"dotfiles", true, true⟩]).2.1 :=
  ⟨(missing_repo_is_terminal
      [⟨"ghost", false, false⟩, ⟨"dotfiles", true, true⟩] false).1.1,
   (missing_repo_is_terminal
      [⟨"ghost", false, false⟩, ⟨"dotfiles", true, true⟩] false).1.2.1,
   (missing_repo_is_terminal
      [⟨"ghost", false, false⟩, ⟨"dotfiles", true, true⟩] false).1.2.2,
   ((missing_repo_is_terminal
      [⟨"ghost", false, false⟩, ⟨"dotfiles", true, true⟩] false).2.2
      ⟨"ghost", false, false⟩ (by simp) rfl).1⟩

/-- C9, counterexample to configurability: the scanner and operation workers
use the constant 120-second timeout from `_get_timeout` and never consult
the configuration — already at the shipped default configuration the
configured values (300 and 60 seconds) differ from the timeouts used. -/
theorem timeouts_not_configurable :
    scanner_timeout ≠ spec_configured_scan_timeout default_git_operations ∧
    operation_worker_timeout ≠
      spec_configured_operation_timeout default_git_operations ∧
    scanner_timeout = 120 ∧
    spec_configured_scan_timeout default_git_operations = 300 ∧
    operation_worker_timeout = 120 ∧
    spec_configured_operation_timeout default_git_operations = 60 := by
  decide

/-- C9, amended: the per-call timeouts are fixed constants — 10 seconds for
the repository count query, 120 seconds for the full delta scan, and 120
seconds for each individual git operation; the configuration's
`scan_timeout` and `operation_timeout` entries exist but are not consulted
by the workers. -/
theorem timeouts_fixed_constants :
    count_query_timeout = 10 ∧ scanner_timeout = 120 ∧
    operation_worker_timeout = 120 := by
  decide

end GitUI
